import Mathlib

/-!
Verification of the conversation-state engine in src/app/page.tsx: data model,
store mutations, message composer, response normalization, persistence effect,
and the send state machine, with theorems checking the specification claims.
-/

set_option maxRecDepth 100000

namespace ChatCore

/-- Sender of a message, source union type sender: user | agent (page.tsx line 13). -/
inductive Sender where
  | user
  | agent
  deriving DecidableEq, Repr

/-- Source interface Message (page.tsx lines 10 to 15). -/
structure Message where
  id : String
  text : String
  sender : Sender
  timestamp : String
  deriving DecidableEq, Repr

/-- Source interface Conversation (page.tsx lines 17 to 23). -/
structure Conversation where
  id : String
  title : String
  messages : List Message
  createdAt : String
  lastMessage : String
  deriving DecidableEq, Repr

/-- Source constant AGENT_ID (page.tsx line 25). -/
def AGENT_ID : String := "6939a09c5a8dda74db9ccca4"

/-- Title given to a fresh conversation (page.tsx line 72). -/
def defaultTitle : String := "New Conversation"

/-- Text of the fixed error placeholder message (page.tsx line 175). -/
def errorApologyText : String :=
  "Sorry, an error occurred while processing your message. Please try again."

/-- Value written to lastMessage on the error branch (page.tsx line 186). -/
def errorMarker : String := "Error"

/-- Fallback when a successful response carries no usable text (page.tsx line 145). -/
def noResponseText : String := "No response received"

/-- Fallback when an unsuccessful response carries no raw text (page.tsx line 147). -/
def errorProcessingText : String := "Error processing request"

/-- Mutable component state of HomePage relevant to the core (page.tsx lines 35 to 38). -/
structure AppState where
  conversations : List Conversation
  currentConversationId : Option String
  inputValue : String
  isLoading : Bool
  deriving DecidableEq, Repr

/-- Fresh conversation object built by createNewConversation (page.tsx lines 70 to 76).
The id and createdAt values come from the environment (Date.now, toISOString). -/
def newConversation (newId ts : String) : Conversation :=
  { id := newId, title := defaultTitle, messages := [], createdAt := ts, lastMessage := "" }

/-- Source createNewConversation (page.tsx lines 69 to 80): insert at head, select, clear input. -/
def createNewConversation (s : AppState) (newId ts : String) : AppState :=
  { s with
      conversations := newConversation newId ts :: s.conversations,
      currentConversationId := some newId,
      inputValue := "" }

/-- Per-conversation transform of the user-message append (page.tsx lines 96 to 107):
append the message, set lastMessage to the raw input text, and set the title from the
first 50 characters of the text only when the conversation had no messages. -/
def updateConvUser (targetId messageText : String) (userMessage : Message)
    (conv : Conversation) : Conversation :=
  if conv.id = targetId then
    { conv with
        messages := conv.messages ++ [userMessage],
        lastMessage := messageText,
        title := if conv.messages.length = 0 then messageText.take 50 else conv.title }
  else conv

/-- Per-conversation transform of the agent-reply append (page.tsx lines 159 to 168). -/
def updateConvAgent (targetId agentResponseText : String) (agentMessage : Message)
    (conv : Conversation) : Conversation :=
  if conv.id = targetId then
    { conv with
        messages := conv.messages ++ [agentMessage],
        lastMessage := agentResponseText }
  else conv

/-- Per-conversation transform of the error-placeholder append (page.tsx lines 181 to 190):
the appended message text is the apology, but lastMessage is set to the marker Error. -/
def updateConvError (targetId : String) (errorMessage : Message)
    (conv : Conversation) : Conversation :=
  if conv.id = targetId then
    { conv with
        messages := conv.messages ++ [errorMessage],
        lastMessage := errorMarker }
  else conv

/-- Role rendering of one history message (page.tsx line 116). -/
def renderMessage (m : Message) : String :=
  (match m.sender with
   | Sender.user => "User"
   | Sender.agent => "Assistant") ++ ": " ++ m.text

/-- Trailing window of a list, source slice(-10) (page.tsx line 115). -/
def lastWindow (n : Nat) (l : List Message) : List Message :=
  l.drop (l.length - n)

/-- Join with newline separators, source Array.join with a newline (page.tsx line 117). -/
def joinNl : List String → String
  | [] => ""
  | [a] => a
  | a :: b :: rest => a ++ "\n" ++ joinNl (b :: rest)

/-- Message composer (page.tsx lines 113 to 119): render the trailing 10 history
messages, join with newlines, and append a final User line carrying the new text when
the rendered context is non-empty; otherwise the composed message is the new text. -/
def buildContext (history : List Message) (newText : String) : String :=
  let context := joinNl ((lastWindow 10 history).map renderMessage)
  if context = "" then newText else context ++ "\n" ++ "User: " ++ newText

/-- Request body fields sent to the agent endpoint (page.tsx lines 125 to 130). -/
structure AgentRequest where
  message : String
  agent_id : String
  user_id : String
  session_id : String
  deriving DecidableEq, Repr

/-- Shape of the response payload field: absent, a plain string, or an object with the
three optional string sub-fields that the code probes (page.tsx lines 140 to 143). -/
inductive ResponsePayload where
  | absent
  | str (s : String)
  | obj (result answer response : Option String)
  deriving DecidableEq, Repr

/-- Parsed gateway response object (page.tsx lines 133 and 138 to 147). -/
structure AgentResponse where
  success : Bool
  response : ResponsePayload
  raw_response : Option String
  deriving DecidableEq, Repr

/-- Optional chaining access to the result sub-field: undefined on a string or absent payload. -/
def ResponsePayload.resultField : ResponsePayload → Option String
  | .obj r _ _ => r
  | _ => none

/-- Optional chaining access to the answer sub-field. -/
def ResponsePayload.answerField : ResponsePayload → Option String
  | .obj _ a _ => a
  | _ => none

/-- Optional chaining access to the response sub-field. -/
def ResponsePayload.responseField : ResponsePayload → Option String
  | .obj _ _ r => r
  | _ => none

/-- Source expression: the payload itself when it is a plain string, otherwise null
(page.tsx line 143). -/
def ResponsePayload.asPlainString : ResponsePayload → Option String
  | .str s => some s
  | _ => none

/-- JavaScript logical-or over optional strings: an absent value and the empty string
are both falsy and fall through to the right operand. -/
def jsOr (a b : Option String) : Option String :=
  match a with
  | none => b
  | some s => if s = "" then b else some s

/-- JavaScript logical-or against a final string literal. -/
def jsOrDefault (a : Option String) (dflt : String) : String :=
  match a with
  | none => dflt
  | some s => if s = "" then dflt else s

/-- Response normalization exactly as the source chains it with logical-or
(page.tsx lines 138 to 148). -/
def normalizeResponse (d : AgentResponse) : String :=
  if d.success then
    jsOrDefault
      (jsOr d.response.resultField
        (jsOr d.response.answerField
          (jsOr d.response.responseField
            (jsOr d.response.asPlainString d.raw_response))))
      noResponseText
  else
    jsOrDefault d.raw_response errorProcessingText

/-- First non-empty candidate of an ordered preference list, else the default. This is
the specification wording of normalization (spec section 4.3), kept separate from
normalizeResponse so the two can be compared. -/
def firstNonempty : List (Option String) → String → String
  | [], dflt => dflt
  | a :: rest, dflt =>
    match a with
    | none => firstNonempty rest dflt
    | some s => if s = "" then firstNonempty rest dflt else s

/-- Specification-side normalization (spec section 4.3): ordered preference list with
first non-empty winning, per success flag. -/
def normalizeSpec (d : AgentResponse) : String :=
  if d.success then
    firstNonempty
      [d.response.resultField, d.response.answerField, d.response.responseField,
       d.response.asPlainString, d.raw_response]
      noResponseText
  else
    firstNonempty [d.raw_response] errorProcessingText

/-- Hexadecimal digit character for JSON string escapes. -/
def hexDigit (n : Nat) : Char :=
  if n < 10 then Char.ofNat (48 + n) else Char.ofNat (87 + n)

/-- Escape of one character as JSON.stringify performs it. -/
def jsonEscapeChar (c : Char) : String :=
  if c = '"' then "\\\""
  else if c = '\\' then "\\\\"
  else if c = '\n' then "\\n"
  else if c = '\r' then "\\r"
  else if c = '\t' then "\\t"
  else if c.toNat = 8 then "\\b"
  else if c.toNat = 12 then "\\f"
  else if c.toNat < 32 then
    "\\u00" ++ String.mk [hexDigit (c.toNat / 16), hexDigit (c.toNat % 16)]
  else String.mk [c]

/-- JSON string literal for a Lean string. -/
def jsonString (s : String) : String :=
  "\"" ++ String.join (s.toList.map jsonEscapeChar) ++ "\""

/-- Serialized form of the sender tag. -/
def senderString : Sender → String
  | Sender.user => "user"
  | Sender.agent => "agent"

/-- JSON.stringify of one Message object, field order as constructed in the source. -/
def serializeMessage (m : Message) : String :=
  "\x7b" ++ jsonString "id" ++ ":" ++ jsonString m.id
    ++ "," ++ jsonString "text" ++ ":" ++ jsonString m.text
    ++ "," ++ jsonString "sender" ++ ":" ++ jsonString (senderString m.sender)
    ++ "," ++ jsonString "timestamp" ++ ":" ++ jsonString m.timestamp
    ++ "\x7d"

/-- JSON.stringify of one Conversation object, field order as constructed in the source. -/
def serializeConversation (c : Conversation) : String :=
  "\x7b" ++ jsonString "id" ++ ":" ++ jsonString c.id
    ++ "," ++ jsonString "title" ++ ":" ++ jsonString c.title
    ++ "," ++ jsonString "messages" ++ ":["
    ++ String.intercalate "," (c.messages.map serializeMessage) ++ "]"
    ++ "," ++ jsonString "createdAt" ++ ":" ++ jsonString c.createdAt
    ++ "," ++ jsonString "lastMessage" ++ ":" ++ jsonString c.lastMessage
    ++ "\x7d"

/-- JSON.stringify of the whole collection. -/
def serializeConversations (convs : List Conversation) : String :=
  "[" ++ String.intercalate "," (convs.map serializeConversation) ++ "]"

/-- Persistence effect (page.tsx lines 56 to 60): the write fires only when the
collection is non-empty; the result is the blob written, or none when skipped. -/
def persistEffect (convs : List Conversation) : Option String :=
  if convs.length > 0 then some (serializeConversations convs) else none

/-- Store state produced by the startup load. -/
structure LoadedState where
  conversations : List Conversation
  currentConversationId : Option String
  deriving DecidableEq, Repr

/-- Empty startup state. -/
def emptyLoaded : LoadedState :=
  { conversations := [], currentConversationId := none }

/-- Startup load effect (page.tsx lines 44 to 53). The saved argument is the stored
blob or none when absent; jsonParse stands for the platform JSON.parse, returning none
exactly when JSON.parse would throw. The source calls JSON.parse with no try or catch,
so a parse failure propagates as an exception, modelled as the error result. -/
def loadConversations (saved : Option String)
    (jsonParse : String → Option (List Conversation)) : Except Unit LoadedState :=
  match saved with
  | none => .ok emptyLoaded
  | some s =>
    if s = "" then .ok emptyLoaded
    else
      match jsonParse s with
      | none => .error ()
      | some parsed =>
        .ok { conversations := parsed,
              currentConversationId :=
                match parsed with
                | [] => none
                | c :: _ => some c.id }

/-- Source deleteConversation (page.tsx lines 217 to 223). -/
def deleteConversation (s : AppState) (targetId : String) : AppState :=
  let updated := s.conversations.filter (fun c => c.id ≠ targetId)
  { s with
      conversations := updated,
      currentConversationId :=
        if s.currentConversationId = some targetId then
          match updated with
          | [] => none
          | c :: _ => some c.id
        else s.currentConversationId }

/-- User message object built at send time (page.tsx lines 88 to 93). -/
def mkUserMessage (msgId messageText ts : String) : Message :=
  { id := msgId, text := messageText, sender := Sender.user, timestamp := ts }

/-- Agent message object built on the success branch (page.tsx lines 151 to 156). -/
def mkAgentMessage (msgId text ts : String) : Message :=
  { id := msgId, text := text, sender := Sender.agent, timestamp := ts }

/-- Error placeholder message object (page.tsx lines 173 to 178). -/
def mkErrorMessage (msgId ts : String) : Message :=
  { id := msgId, text := errorApologyText, sender := Sender.agent, timestamp := ts }

/-- JavaScript String.prototype.trim: strip whitespace from both ends. Embedded as a
structurally recursive function so that it evaluates inside the kernel. -/
def jsTrim (s : String) : String :=
  String.mk (((s.data.dropWhile Char.isWhitespace).reverse.dropWhile Char.isWhitespace).reverse)

/-- In-flight send: the conversation id captured when the send began and the request
that was issued. -/
structure PendingSend where
  convId : String
  request : AgentRequest
  deriving DecidableEq, Repr

/-- Synchronous prefix of sendMessage up to the fetch call (page.tsx lines 82 to 131):
the guard rejects blank trimmed text or a missing selection with no mutation; an
accepted send sets the busy flag, appends the user message, clears the input, and
issues the request whose message is composed from the conversation snapshot taken
before the append and whose session id is the captured conversation id. The guard
does not consult the busy flag. -/
def sendStart (s : AppState) (messageText msgId ts : String) :
    AppState × Option PendingSend :=
  if jsTrim messageText = "" then (s, none)
  else
    match s.currentConversationId with
    | none => (s, none)
    | some cid =>
      ({ s with
           conversations := s.conversations.map
             (updateConvUser cid messageText (mkUserMessage msgId messageText ts)),
           inputValue := "",
           isLoading := true },
       some { convId := cid,
              request :=
                { message :=
                    buildContext
                      (match s.conversations.find? (fun c => c.id = cid) with
                       | some c => c.messages
                       | none => []) messageText,
                  agent_id := AGENT_ID,
                  user_id := "chatbot-user",
                  session_id := cid } })

/-- Completion of a send on the success branch (page.tsx lines 133 to 169 and the
finally block at 192 to 194): append the normalized agent reply to the conversation
captured at send start and clear the busy flag. -/
def sendFinishSuccess (s : AppState) (p : PendingSend) (d : AgentResponse)
    (msgId ts : String) : AppState :=
  { s with
      conversations := s.conversations.map
        (updateConvAgent p.convId (normalizeResponse d)
          (mkAgentMessage msgId (normalizeResponse d) ts)),
      isLoading := false }

/-- Completion of a send on the catch branch (page.tsx lines 170 to 194): append the
fixed apology message, set lastMessage to the error marker, clear the busy flag. -/
def sendFinishError (s : AppState) (p : PendingSend) (msgId ts : String) : AppState :=
  { s with
      conversations := s.conversations.map (updateConvError p.convId (mkErrorMessage msgId ts)),
      isLoading := false }

/-- Whole-process state: the component state plus the set of sends in flight. -/
structure SysState where
  app : AppState
  pending : List PendingSend
  deriving DecidableEq, Repr

/-- Initial process state before any interaction. -/
def initState : SysState :=
  { app := { conversations := [], currentConversationId := none,
             inputValue := "", isLoading := false },
    pending := [] }

/-- Event-level transition relation of the page. Conversation ids come from Date.now,
so a freshly created id differs from every id already present, stated as the freshness
hypotheses of the create constructor. A rejected send leaves the state unchanged and
needs no transition. -/
inductive Step : SysState → SysState → Prop where
  | create (s : SysState) (newId ts : String)
      (hfc : ∀ c ∈ s.app.conversations, c.id ≠ newId)
      (hfp : ∀ p ∈ s.pending, p.convId ≠ newId) :
      Step s { app := createNewConversation s.app newId ts, pending := s.pending }
  | select (s : SysState) (cid : String)
      (hmem : ∃ c ∈ s.app.conversations, c.id = cid) :
      Step s { s with app := { s.app with currentConversationId := some cid } }
  | deleteConv (s : SysState) (targetId : String) :
      Step s { s with app := deleteConversation s.app targetId }
  | sendBegin (s : SysState) (mt msgId ts : String) (a : AppState) (p : PendingSend)
      (h : sendStart s.app mt msgId ts = (a, some p)) :
      Step s { app := a, pending := p :: s.pending }
  | finishSuccess (s : SysState) (p : PendingSend) (d : AgentResponse) (msgId ts : String)
      (hp : p ∈ s.pending) :
      Step s { app := sendFinishSuccess s.app p d msgId ts, pending := s.pending.erase p }
  | finishError (s : SysState) (p : PendingSend) (msgId ts : String)
      (hp : p ∈ s.pending) :
      Step s { app := sendFinishError s.app p msgId ts, pending := s.pending.erase p }

/-- States reachable from the initial state by page events. -/
inductive Reachable : SysState → Prop where
  | init : Reachable initState
  | step : ∀ {s s'}, Reachable s → Step s s' → Reachable s'

/-- Mirror property of one conversation: lastMessage equals the text of the final
message, or the empty string when there are no messages. -/
def lastMirror (c : Conversation) : Prop :=
  c.lastMessage =
    match c.messages.getLast? with
    | none => ""
    | some m => m.text

instance (c : Conversation) : Decidable (lastMirror c) := by
  unfold lastMirror; infer_instance

/-! Shared concrete sample data used by witnesses and counterexamples. -/

/-- Sample user message. -/
def sampleUser : Message := mkUserMessage "10" "hi" "t1"

/-- Sample fresh conversation. -/
def sampleFresh : Conversation := newConversation "1" "t0"

/-- Sample app state with one fresh conversation selected and the busy flag set. -/
def busyState : AppState :=
  { conversations := [sampleFresh], currentConversationId := some "1",
    inputValue := "hi", isLoading := true }

/-! Helper lemmas. -/

lemma updateConvUser_id (cid mt : String) (u : Message) (c : Conversation) :
    (updateConvUser cid mt u c).id = c.id := by
  unfold updateConvUser; split <;> rfl

lemma updateConvAgent_id (cid txt : String) (a : Message) (c : Conversation) :
    (updateConvAgent cid txt a c).id = c.id := by
  unfold updateConvAgent; split <;> rfl

lemma updateConvError_id (cid : String) (e : Message) (c : Conversation) :
    (updateConvError cid e c).id = c.id := by
  unfold updateConvError; split <;> rfl

lemma updateConvUser_messages (cid mt : String) (u : Message) (c : Conversation) :
    (updateConvUser cid mt u c).messages =
      if c.id = cid then c.messages ++ [u] else c.messages := by
  unfold updateConvUser; split <;> rfl

lemma updateConvAgent_messages (cid txt : String) (a : Message) (c : Conversation) :
    (updateConvAgent cid txt a c).messages =
      if c.id = cid then c.messages ++ [a] else c.messages := by
  unfold updateConvAgent; split <;> rfl

lemma updateConvError_messages (cid : String) (e : Message) (c : Conversation) :
    (updateConvError cid e c).messages =
      if c.id = cid then c.messages ++ [e] else c.messages := by
  unfold updateConvError; split <;> rfl

/-- C9: for every send completion, on the success branch or on the error branch, the
busy flag is false afterwards; the finally block clears it unconditionally, so no
input leaves the flag permanently set. -/
theorem busy_flag_release :
    ∀ (s : AppState) (p : PendingSend) (d : AgentResponse) (msgId ts : String),
      (sendFinishSuccess s p d msgId ts).isLoading = false ∧
      (sendFinishError s p msgId ts).isLoading = false := by
  intro s p d msgId ts
  exact ⟨rfl, rfl⟩

/-- Sample conversation as it would come out of a parsed blob. -/
def parsedConvA : Conversation :=
  { id := "A", title := "New Conversation", messages := [], createdAt := "2026-01-01",
    lastMessage := "" }

/-- C2: behaviour of the startup load. An absent blob yields the empty store; a
parseable blob seeds the collection and selects the head entry; but a present and
unparseable blob makes the load throw (the source calls JSON.parse with no try or
catch), contradicting the claim that parse failure is treated as absent. The jsonParse
argument stands for JSON.parse, returning none exactly where JSON.parse throws. -/
theorem load_crashes_on_unparseable_blob :
    loadConversations (some "not-json") (fun _ => none) = Except.error () ∧
    loadConversations none (fun _ => none) = Except.ok emptyLoaded ∧
    loadConversations (some "[]") (fun _ => some []) = Except.ok emptyLoaded ∧
    loadConversations (some "blob") (fun _ => some [parsedConvA]) =
      Except.ok { conversations := [parsedConvA], currentConversationId := some "A" } := by
  refine ⟨rfl, rfl, rfl, rfl⟩

/-- State with a single conversation, used for the persistence counterexample. -/
def oneConvState : AppState :=
  { conversations := [sampleFresh], currentConversationId := some "1",
    inputValue := "", isLoading := false }

/-- C4 counterexample: deleting the only conversation succeeds and empties the
collection, but the persistence effect performs no write at all (the effect is guarded
by a positive length check), so this successful mutation is not written through. -/
theorem persist_skips_empty_counterexample :
    (deleteConversation oneConvState "1").conversations = [] ∧
    persistEffect (deleteConversation oneConvState "1").conversations = none := by
  exact ⟨rfl, rfl⟩

/-- C4 amended: a mutation that leaves the collection non-empty triggers a full
re-serialization and write of the entire collection; a mutation that empties the
collection is not persisted at all. -/
theorem persist_write_amended (convs : List Conversation) :
    (convs ≠ [] → persistEffect convs = some (serializeConversations convs)) ∧
    (convs = [] → persistEffect convs = none) := by
  constructor
  · intro h
    have hpos : 0 < convs.length := List.length_pos.mpr h
    simp [persistEffect, hpos]
  · intro h
    subst h
    rfl

/-- C4 witness: the amended statement evaluated on a singleton collection. -/
theorem persist_write_amended_witness :
    [sampleFresh] ≠ [] ∧
    persistEffect [sampleFresh] = some (serializeConversations [sampleFresh]) :=
  ⟨by simp, (persist_write_amended [sampleFresh]).1 (by simp)⟩

/-- Pending send used in counterexamples, targeting conversation 1. -/
def samplePending : PendingSend :=
  { convId := "1",
    request := { message := "hi", agent_id := AGENT_ID, user_id := "chatbot-user",
                 session_id := "1" } }

/-- C1 counterexample: after the error append, lastMessage is the marker Error while
the final entry text is the fixed apology, so lastMessage differs from the text of the
final entry of messages. -/
theorem lastMessage_mirror_fails_on_error_append :
    ¬ lastMirror
        (((sendFinishError busyState samplePending "11" "t2").conversations).getD 0
          (newConversation "z" "tz")) := by
  decide

/-- C1 amended: the user append and the agent append preserve the mirror property of
lastMessage; the error append instead sets lastMessage to the marker Error while
appending the apology message, so after an error append lastMessage is the marker, not
the text of the final entry. -/
theorem lastMessage_mirror_amended (cid mt art : String) (u a e : Message)
    (hu : u.text = mt) (ha : a.text = art)
    (c : Conversation) (hc : lastMirror c) :
    lastMirror (updateConvUser cid mt u c) ∧
    lastMirror (updateConvAgent cid art a c) ∧
    (c.id = cid →
      (updateConvError cid e c).lastMessage = errorMarker ∧
      (updateConvError cid e c).messages.getLast? = some e) := by
  refine ⟨?_, ?_, ?_⟩
  · unfold updateConvUser
    by_cases hid : c.id = cid
    · simp only [hid, if_true]
      unfold lastMirror
      simp [List.getLast?_concat, hu]
    · simpa [hid] using hc
  · unfold updateConvAgent
    by_cases hid : c.id = cid
    · simp only [hid, if_true]
      unfold lastMirror
      simp [List.getLast?_concat, ha]
    · simpa [hid] using hc
  · intro hid
    unfold updateConvError
    simp [hid, List.getLast?_concat]

/-- C1 witness: the amended statement evaluated on a fresh conversation. -/
theorem lastMessage_mirror_amended_witness :
    lastMirror (updateConvUser "1" "hi" sampleUser sampleFresh) ∧
    lastMirror (updateConvAgent "1" "ok" (mkAgentMessage "2" "ok" "t3") sampleFresh) ∧
    (sampleFresh.id = "1" →
      (updateConvError "1" (mkErrorMessage "3" "t4") sampleFresh).lastMessage = errorMarker ∧
      (updateConvError "1" (mkErrorMessage "3" "t4") sampleFresh).messages.getLast? =
        some (mkErrorMessage "3" "t4")) :=
  lastMessage_mirror_amended "1" "hi" "ok" sampleUser (mkAgentMessage "2" "ok" "t3")
    (mkErrorMessage "3" "t4") rfl rfl sampleFresh (by decide)

/-- C3 counterexample: with the busy flag already set and a valid selection and text,
sendMessage still proceeds: it issues a request and mutates the state, because the
guard inside sendMessage never consults the busy flag. -/
theorem send_guard_reentrancy_counterexample :
    busyState.isLoading = true ∧
    ((sendStart busyState "hi" "7" "t1").2).isSome = true ∧
    (sendStart busyState "hi" "7" "t1").1 ≠ busyState := by
  refine ⟨rfl, by decide, by decide⟩

/-- C3 amended: the guard inside sendMessage rejects, with no state mutation, exactly
blank trimmed text or a missing conversation selection; it does not check the busy
flag, so a call made while a send is in flight is accepted, and re-entrancy is
prevented only by the call-site disabling of the input controls. -/
theorem send_guard_amended :
    (∀ (s : AppState) (mt i t : String), jsTrim mt = "" →
        sendStart s mt i t = (s, none)) ∧
    (∀ (s : AppState) (mt i t : String), s.currentConversationId = none →
        sendStart s mt i t = (s, none)) ∧
    (∀ (s : AppState) (mt i t cid : String),
        s.isLoading = true → s.currentConversationId = some cid → jsTrim mt ≠ "" →
        ((sendStart s mt i t).2).isSome = true) := by
  refine ⟨?_, ?_, ?_⟩
  · intro s mt i t h
    simp [sendStart, h]
  · intro s mt i t h
    unfold sendStart
    by_cases hmt : jsTrim mt = "" <;> simp [hmt, h]
  · intro s mt i t cid hb hcid hmt
    simp [sendStart, hmt, hcid]

/-- C3 witness: the amended statement evaluated at concrete inputs. -/
theorem send_guard_amended_witness :
    sendStart busyState " " "9" "t9" = (busyState, none) ∧
    ((sendStart busyState "hi" "9" "t9").2).isSome = true :=
  ⟨send_guard_amended.1 busyState " " "9" "t9" (by decide),
   send_guard_amended.2.2 busyState "hi" "9" "t9" "1" rfl rfl (by decide)⟩

lemma jsOrDefault_jsOr (a b : Option String) (dflt : String) :
    jsOrDefault (jsOr a b) dflt =
      match a with
      | none => jsOrDefault b dflt
      | some s => if s = "" then jsOrDefault b dflt else s := by
  cases a with
  | none => rfl
  | some s =>
    by_cases hs : s = "" <;> simp [jsOr, jsOrDefault, hs]

lemma firstNonempty_singleton (f : Option String) (dflt : String) :
    firstNonempty [f] dflt = jsOrDefault f dflt := by
  cases f with
  | none => rfl
  | some s => by_cases hs : s = "" <;> simp [firstNonempty, jsOrDefault, hs]

lemma firstNonempty_cons_eq (x : Option String) {y : Option String}
    (l : List (Option String)) (dflt : String)
    (h : jsOrDefault y dflt = firstNonempty l dflt) :
    jsOrDefault (jsOr x y) dflt = firstNonempty (x :: l) dflt := by
  rw [jsOrDefault_jsOr]
  cases x <;> simp [firstNonempty, h]

lemma chain5 (a b c e f : Option String) (dflt : String) :
    jsOrDefault (jsOr a (jsOr b (jsOr c (jsOr e f)))) dflt =
      firstNonempty [a, b, c, e, f] dflt :=
  firstNonempty_cons_eq a _ dflt
    (firstNonempty_cons_eq b _ dflt
      (firstNonempty_cons_eq c _ dflt
        (firstNonempty_cons_eq e _ dflt (firstNonempty_singleton f dflt).symm)))

/-- C6: response normalization follows the fixed precedence with the first non-empty
value winning. The source chain of logical-or operators equals the specification
preference list on every response object, for the successful branch (result, answer,
response, string payload, raw text, fixed fallback) and for the unsuccessful branch
(raw text, fixed fallback); the two scenario payloads of the specification evaluate
as stated. -/
theorem normalization_precedence :
    (∀ d : AgentResponse, normalizeResponse d = normalizeSpec d) ∧
    normalizeResponse
      { success := true, response := ResponsePayload.obj (some "X") none none,
        raw_response := none } = "X" ∧
    normalizeResponse
      { success := true, response := ResponsePayload.obj none none none,
        raw_response := none } = noResponseText ∧
    (∀ (pl : ResponsePayload) (ra : Option String),
      normalizeResponse { success := false, response := pl, raw_response := ra } =
        firstNonempty [ra] errorProcessingText) := by
  refine ⟨?_, by decide, by decide, ?_⟩
  · intro d
    unfold normalizeResponse normalizeSpec
    cases hs : d.success with
    | false => simp [firstNonempty_singleton]
    | true => simp [chain5]
  · intro pl ra
    simp [normalizeResponse, firstNonempty_singleton]

lemma le_joinNl_length (x : String) (l : List String) :
    x.length ≤ (joinNl (x :: l)).length := by
  cases l with
  | nil => simp [joinNl]
  | cons b r =>
    simp only [joinNl, String.length_append]
    omega

lemma renderMessage_length_pos (m : Message) : 0 < (renderMessage m).length := by
  rcases m with ⟨i, tx, sd, ts⟩
  have hu : ("User" : String).length = 4 := rfl
  have ha : ("Assistant" : String).length = 9 := rfl
  cases sd <;>
    · simp only [renderMessage, String.length_append]
      omega

lemma joinNl_render_ne_empty (m : Message) (l : List Message) :
    joinNl ((m :: l).map renderMessage) ≠ "" := by
  intro h
  have h1 := le_joinNl_length (renderMessage m) (l.map renderMessage)
  have h2 := renderMessage_length_pos m
  rw [List.map_cons] at h
  rw [h] at h1
  simp at h1
  omega

lemma lastWindow_ne_nil (n : Nat) (l : List Message) (hn : 0 < n) (hl : l ≠ []) :
    lastWindow n l ≠ [] := by
  have hlen : (lastWindow n l).length = l.length - (l.length - n) := by
    simp [lastWindow]
  have hpos : 0 < l.length := List.length_pos.mpr hl
  intro h
  rw [h] at hlen
  simp at hlen
  omega

/-- C7: the message composer takes at most the trailing 10 messages of the history,
renders each by sender role, joins with newlines, and appends a final User line with
the new text exactly when history is non-empty; with empty history the composed
message is the new text unmodified. Moreover the request issued by an accepted send is
composed from the conversation snapshot taken before the triggering user message was
appended, so the triggering message never appears in the history window. -/
theorem buildContext_spec (hist : List Message) (t : String) :
    (lastWindow 10 hist).length ≤ 10 ∧
    (hist = [] → buildContext hist t = t) ∧
    (hist ≠ [] →
      buildContext hist t =
        joinNl ((lastWindow 10 hist).map renderMessage) ++ "\n" ++ "User: " ++ t) ∧
    (∀ (s : AppState) (cid mt i ts : String) (c : Conversation) (p : PendingSend),
      s.currentConversationId = some cid →
      s.conversations.find? (fun x => x.id = cid) = some c →
      (sendStart s mt i ts).2 = some p →
      p.request.message = buildContext c.messages mt) := by
  refine ⟨?_, ?_, ?_, ?_⟩
  · simp only [lastWindow, List.length_drop]
    omega
  · intro h
    subst h
    rfl
  · intro h
    obtain ⟨m, l, hw⟩ := List.exists_cons_of_ne_nil (lastWindow_ne_nil 10 hist (by omega) h)
    unfold buildContext
    rw [hw]
    rw [if_neg (joinNl_render_ne_empty m l)]
  · intro s cid mt i ts c p hcid hfind hsend
    unfold sendStart at hsend
    by_cases hmt : jsTrim mt = ""
    · rw [if_pos hmt] at hsend
      cases hsend
    · rw [if_neg hmt, hcid] at hsend
      simp only [Option.some.injEq] at hsend
      subst hsend
      simp [hfind]

/-- C7 witness: the non-empty-history branch of the composer contract evaluated on a
one-message history. -/
theorem buildContext_spec_witness :
    buildContext [sampleUser] "next" =
      joinNl ((lastWindow 10 [sampleUser]).map renderMessage) ++ "\n" ++ "User: " ++ "next" :=
  (buildContext_spec [sampleUser] "next").2.2.1 (by simp)

/-- App state at the start of the mid-flight deletion scenario: one conversation A,
selected, idle. -/
def scenarioState : AppState :=
  { conversations := [newConversation "A" "t0"], currentConversationId := some "A",
    inputValue := "hello", isLoading := false }

/-- Accepted send on the scenario state. -/
def scenarioStart : AppState × Option PendingSend :=
  sendStart scenarioState "hello" "1" "t1"

/-- Scenario state after conversation A is deleted while the send is in flight. -/
def scenarioAfterDelete : AppState :=
  deleteConversation scenarioStart.1 "A"

/-- Successful response arriving after the deletion. -/
def scenarioResponse : AgentResponse :=
  { success := true, response := ResponsePayload.obj (some "yo") none none,
    raw_response := none }

/-- Final state of the mid-flight deletion scenario. -/
def scenarioFinal : AppState :=
  match scenarioStart.2 with
  | some p => sendFinishSuccess scenarioAfterDelete p scenarioResponse "2" "t2"
  | none => scenarioAfterDelete

/-- C5 counterexample: the send is accepted (a request is issued), conversation A is
deleted while it is in flight, and the final store holds no conversation at all: both
the user message and the follow-up reply of an accepted send vanish silently, because
the follow-up append maps over a collection with no matching id. -/
theorem send_drop_on_delete_counterexample :
    (scenarioStart.2).isSome = true ∧
    scenarioFinal.conversations = [] := by
  exact ⟨by decide, by decide⟩

/-- C5 amended: an accepted send appends exactly one user message to the conversation
that was active at send start, leaving every other conversation untouched; the
follow-up append adds exactly one message to each conversation carrying the captured
id and leaves the rest untouched; but when no conversation with the captured id
remains (it was deleted mid-flight), the follow-up append leaves the whole collection
unchanged and the reply is silently dropped. -/
theorem send_append_amended :
    (∀ (s : AppState) (cid mt i ts : String),
        s.currentConversationId = some cid → jsTrim mt ≠ "" →
        (sendStart s mt i ts).1.conversations =
          s.conversations.map (updateConvUser cid mt (mkUserMessage i mt ts))) ∧
    (∀ (cid mt i ts : String) (c : Conversation),
        (updateConvUser cid mt (mkUserMessage i mt ts) c).messages.length =
          c.messages.length + (if c.id = cid then 1 else 0)) ∧
    (∀ (cid txt : String) (a : Message) (c : Conversation),
        (updateConvAgent cid txt a c).messages.length =
          c.messages.length + (if c.id = cid then 1 else 0)) ∧
    (∀ (s : AppState) (p : PendingSend) (d : AgentResponse) (i ts : String),
        (∀ c ∈ s.conversations, c.id ≠ p.convId) →
        (sendFinishSuccess s p d i ts).conversations = s.conversations) ∧
    (∀ (s : AppState) (p : PendingSend) (i ts : String),
        (∀ c ∈ s.conversations, c.id ≠ p.convId) →
        (sendFinishError s p i ts).conversations = s.conversations) := by
  refine ⟨?_, ?_, ?_, ?_, ?_⟩
  · intro s cid mt i ts hcid hmt
    simp [sendStart, hmt, hcid]
  · intro cid mt i ts c
    rw [updateConvUser_messages]
    split <;> simp
  · intro cid txt a c
    rw [updateConvAgent_messages]
    split <;> simp
  · intro s p d i ts h
    show s.conversations.map _ = s.conversations
    have : ∀ c ∈ s.conversations,
        updateConvAgent p.convId (normalizeResponse d)
          (mkAgentMessage i (normalizeResponse d) ts) c = c := by
      intro c hc
      unfold updateConvAgent
      rw [if_neg (h c hc)]
    calc s.conversations.map
          (updateConvAgent p.convId (normalizeResponse d)
            (mkAgentMessage i (normalizeResponse d) ts))
        = s.conversations.map id := List.map_congr_left this
      _ = s.conversations := List.map_id _
  · intro s p i ts h
    show s.conversations.map _ = s.conversations
    have : ∀ c ∈ s.conversations,
        updateConvError p.convId (mkErrorMessage i ts) c = c := by
      intro c hc
      unfold updateConvError
      rw [if_neg (h c hc)]
    calc s.conversations.map (updateConvError p.convId (mkErrorMessage i ts))
        = s.conversations.map id := List.map_congr_left this
      _ = s.conversations := List.map_id _

/-- C5 witness: the amended statement evaluated at concrete inputs. -/
theorem send_append_amended_witness :
    (sendStart scenarioState "hello" "1" "t1").1.conversations =
      scenarioState.conversations.map
        (updateConvUser "A" "hello" (mkUserMessage "1" "hello" "t1")) ∧
    (sendFinishError scenarioAfterDelete samplePending "3" "t3").conversations =
      scenarioAfterDelete.conversations :=
  ⟨send_append_amended.1 scenarioState "A" "hello" "1" "t1" rfl (by decide),
   send_append_amended.2.2.2.2 scenarioAfterDelete samplePending "3" "t3" (by decide)⟩

/-- C10: an accepted send captures the conversation id that was active at send start:
the issued request carries it as session id, and both completion branches append only
to conversations carrying that captured id, independent of whichever conversation is
selected at completion time. -/
theorem session_routing :
    (∀ (s : AppState) (cid mt i ts : String) (p : PendingSend),
        s.currentConversationId = some cid →
        (sendStart s mt i ts).2 = some p →
        p.convId = cid ∧ p.request.session_id = cid) ∧
    (∀ (s₁ s₂ : AppState) (p : PendingSend) (d : AgentResponse) (i ts : String),
        s₁.conversations = s₂.conversations →
        (sendFinishSuccess s₁ p d i ts).conversations =
          (sendFinishSuccess s₂ p d i ts).conversations) ∧
    (∀ (s₁ s₂ : AppState) (p : PendingSend) (i ts : String),
        s₁.conversations = s₂.conversations →
        (sendFinishError s₁ p i ts).conversations =
          (sendFinishError s₂ p i ts).conversations) ∧
    (∀ (cid txt : String) (a e : Message) (c : Conversation), c.id ≠ cid →
        updateConvAgent cid txt a c = c ∧ updateConvError cid e c = c) := by
  refine ⟨?_, ?_, ?_, ?_⟩
  · intro s cid mt i ts p hcid hsend
    unfold sendStart at hsend
    by_cases hmt : jsTrim mt = ""
    · rw [if_pos hmt] at hsend
      cases hsend
    · rw [if_neg hmt, hcid] at hsend
      simp only [Option.some.injEq] at hsend
      subst hsend
      exact ⟨rfl, rfl⟩
  · intro s₁ s₂ p d i ts h
    show s₁.conversations.map _ = s₂.conversations.map _
    rw [h]
  · intro s₁ s₂ p i ts h
    show s₁.conversations.map _ = s₂.conversations.map _
    rw [h]
  · intro cid txt a e c hc
    constructor
    · unfold updateConvAgent
      rw [if_neg hc]
    · unfold updateConvError
      rw [if_neg hc]

/-- Pending send produced by the accepted scenario send. -/
def scenarioPending : PendingSend :=
  { convId := "A",
    request := { message := "hello", agent_id := AGENT_ID, user_id := "chatbot-user",
                 session_id := "A" } }

/-- C10 witness: the routing statement evaluated on the scenario send. -/
theorem session_routing_witness :
    scenarioStart.2 = some scenarioPending ∧
    scenarioPending.convId = "A" ∧ scenarioPending.request.session_id = "A" :=
  ⟨by decide,
   session_routing.1 scenarioState "A" "hello" "1" "t1" scenarioPending rfl (by decide)⟩

/-- Title invariant of one conversation: the default title while no message exists,
and from the first message on, the first 50 characters of the text of that first
message, which is a user message. -/
def titleOk (c : Conversation) : Prop :=
  match c.messages with
  | [] => c.title = defaultTitle
  | m :: _ => c.title = m.text.take 50 ∧ m.sender = Sender.user

/-- Invariant of the whole process state: every stored conversation satisfies the
title invariant, and every in-flight send targets a conversation that, if still
present, already holds its triggering user message. -/
def stateInv (s : SysState) : Prop :=
  (∀ c ∈ s.app.conversations, titleOk c) ∧
  (∀ p ∈ s.pending, ∀ c ∈ s.app.conversations, c.id = p.convId → c.messages ≠ [])

lemma titleOk_updateConvUser {cid mt : String} {u : Message}
    (hu : u.text = mt) (hs : u.sender = Sender.user)
    {c : Conversation} (h : titleOk c) :
    titleOk (updateConvUser cid mt u c) := by
  unfold updateConvUser
  by_cases hid : c.id = cid
  · rw [if_pos hid]
    rcases hms : c.messages with _ | ⟨m, rest⟩
    · unfold titleOk
      simp [hms, hu, hs]
    · unfold titleOk at h ⊢
      simp only [hms] at h ⊢
      simpa using h
  · rw [if_neg hid]
    exact h

lemma titleOk_appendTail {c : Conversation} {a : Message} {lm : String}
    (hne : c.messages ≠ []) (h : titleOk c) :
    titleOk { c with messages := c.messages ++ [a], lastMessage := lm } := by
  rcases hms : c.messages with _ | ⟨m, rest⟩
  · exact absurd hms hne
  · unfold titleOk at h ⊢
    simp only [hms] at h ⊢
    simpa using h

lemma titleOk_updateConvAgent {cid txt : String} {a : Message} {c : Conversation}
    (hne : c.id = cid → c.messages ≠ []) (h : titleOk c) :
    titleOk (updateConvAgent cid txt a c) := by
  unfold updateConvAgent
  by_cases hid : c.id = cid
  · rw [if_pos hid]
    exact titleOk_appendTail (hne hid) h
  · rw [if_neg hid]
    exact h

lemma titleOk_updateConvError {cid : String} {e : Message} {c : Conversation}
    (hne : c.id = cid → c.messages ≠ []) (h : titleOk c) :
    titleOk (updateConvError cid e c) := by
  unfold updateConvError
  by_cases hid : c.id = cid
  · rw [if_pos hid]
    exact titleOk_appendTail (hne hid) h
  · rw [if_neg hid]
    exact h

lemma updateConvUser_messages_ne {cid mt : String} {u : Message} {c : Conversation}
    (h : c.messages ≠ [] ∨ c.id = cid) :
    (updateConvUser cid mt u c).messages ≠ [] := by
  rw [updateConvUser_messages]
  rcases h with h | h
  · split <;> simp [h]
  · simp [h]

lemma updateConvAgent_messages_ne {cid txt : String} {a : Message} {c : Conversation}
    (h : c.messages ≠ []) :
    (updateConvAgent cid txt a c).messages ≠ [] := by
  rw [updateConvAgent_messages]
  split <;> simp [h]

lemma updateConvError_messages_ne {cid : String} {e : Message} {c : Conversation}
    (h : c.messages ≠ []) :
    (updateConvError cid e c).messages ≠ [] := by
  rw [updateConvError_messages]
  split <;> simp [h]

lemma sendStart_accepted {s : AppState} {mt i ts : String} {a : AppState}
    {p : PendingSend} (h : sendStart s mt i ts = (a, some p)) :
    ∃ cid, s.currentConversationId = some cid ∧ p.convId = cid ∧
      a.conversations = s.conversations.map (updateConvUser cid mt (mkUserMessage i mt ts)) := by
  unfold sendStart at h
  by_cases hmt : jsTrim mt = ""
  · rw [if_pos hmt] at h
    cases h
  · rw [if_neg hmt] at h
    rcases hc : s.currentConversationId with _ | cid
    · rw [hc] at h
      cases h
    · rw [hc] at h
      obtain ⟨ha, hp⟩ := Prod.mk.injEq .. |>.mp h
      obtain hp := Option.some.injEq .. |>.mp hp
      subst hp
      subst ha
      exact ⟨cid, rfl, rfl, rfl⟩

lemma stateInv_step {s s' : SysState} (hs : stateInv s) (st : Step s s') :
    stateInv s' := by
  obtain ⟨hT, hP⟩ := hs
  cases st with
  | create newId ts hfc hfp =>
    constructor
    · intro c hc
      rcases List.mem_cons.mp hc with h | h
      · subst h
        unfold titleOk newConversation
        simp
      · exact hT c h
    · intro p hp c hc hid
      rcases List.mem_cons.mp hc with h | h
      · subst h
        exact absurd hid (by simpa [newConversation] using Ne.symm (hfp p hp))
      · exact hP p hp c h hid
  | select cid hmem =>
    exact ⟨hT, hP⟩
  | deleteConv targetId =>
    constructor
    · intro c hc
      exact hT c (List.mem_of_mem_filter hc)
    · intro p hp c hc hid
      exact hP p hp c (List.mem_of_mem_filter hc) hid
  | sendBegin mt msgId ts a p h =>
    obtain ⟨cid, hcid, hpcid, hconvs⟩ := sendStart_accepted h
    constructor
    · intro c hc
      rw [hconvs] at hc
      obtain ⟨c₀, hc₀, rfl⟩ := List.mem_map.mp hc
      refine titleOk_updateConvUser ?_ ?_ (hT c₀ hc₀) <;> rfl
    · intro q hq c hc hid
      rw [hconvs] at hc
      obtain ⟨c₀, hc₀, rfl⟩ := List.mem_map.mp hc
      rw [updateConvUser_id] at hid
      rcases List.mem_cons.mp hq with h | h
      · subst h
        apply updateConvUser_messages_ne
        right
        rw [hid, hpcid]
      · by_cases hcc : c₀.id = cid
        · exact updateConvUser_messages_ne (Or.inr hcc)
        · exact updateConvUser_messages_ne (Or.inl (hP q h c₀ hc₀ hid))
  | finishSuccess p d msgId ts hp =>
    constructor
    · intro c hc
      obtain ⟨c₀, hc₀, rfl⟩ := List.mem_map.mp hc
      exact titleOk_updateConvAgent (fun hid => hP p hp c₀ hc₀ hid) (hT c₀ hc₀)
    · intro q hq c hc hid
      obtain ⟨c₀, hc₀, rfl⟩ := List.mem_map.mp hc
      rw [updateConvAgent_id] at hid
      by_cases hcc : c₀.id = p.convId
      · exact updateConvAgent_messages_ne (hP p hp c₀ hc₀ hcc)
      · exact updateConvAgent_messages_ne
          (hP q (List.erase_subset p s.pending hq) c₀ hc₀ hid)
  | finishError p msgId ts hp =>
    constructor
    · intro c hc
      obtain ⟨c₀, hc₀, rfl⟩ := List.mem_map.mp hc
      exact titleOk_updateConvError (fun hid => hP p hp c₀ hc₀ hid) (hT c₀ hc₀)
    · intro q hq c hc hid
      obtain ⟨c₀, hc₀, rfl⟩ := List.mem_map.mp hc
      rw [updateConvError_id] at hid
      by_cases hcc : c₀.id = p.convId
      · exact updateConvError_messages_ne (hP p hp c₀ hc₀ hcc)
      · exact updateConvError_messages_ne
          (hP q (List.erase_subset p s.pending hq) c₀ hc₀ hid)

lemma stateInv_reachable {s : SysState} (h : Reachable s) : stateInv s := by
  induction h with
  | init =>
    constructor
    · intro c hc
      simp [initState] at hc
    · intro p hp
      simp [initState] at hp
  | step _ hst ih => exact stateInv_step ih hst

lemma titleOk_elim {c : Conversation} (h : titleOk c) :
    (c.messages = [] → c.title = defaultTitle) ∧
    (∀ m rest, c.messages = m :: rest → c.title = m.text.take 50) := by
  rcases c with ⟨i, ti, ms, ca, lm⟩
  rcases ms with _ | ⟨m, rest⟩
  · refine ⟨fun _ => h, ?_⟩
    intro m' rest' hmr
    cases hmr
  · refine ⟨?_, ?_⟩
    · intro hnil
      cases hnil
    · intro m' rest' hmr
      injection hmr with h1 h2
      subst h1
      exact h.1

/-- C8: in every reachable state, every stored conversation carries the default title
exactly while it has no messages, and from the moment its first message is appended
its title is the first 50 characters of the text of that first message; since the
first entry of an append-only sequence never changes, the title is assigned exactly
once and no subsequent append alters it. -/
theorem title_freeze (s : SysState) (h : Reachable s) :
    ∀ c ∈ s.app.conversations,
      (c.messages = [] → c.title = defaultTitle) ∧
      (∀ m rest, c.messages = m :: rest → c.title = m.text.take 50) :=
  fun c hc => titleOk_elim ((stateInv_reachable h).1 c hc)

/-- Process state after creating one conversation. -/
def witState1 : SysState :=
  { app := createNewConversation initState.app "1" "t0", pending := [] }

/-- Conversation 1 after its first send. -/
def witConv2 : Conversation :=
  { id := "1", title := "hello", messages := [mkUserMessage "2" "hello" "t1"],
    createdAt := "t0", lastMessage := "hello" }

/-- Component state after the first send began. -/
def witApp2 : AppState :=
  { conversations := [witConv2], currentConversationId := some "1",
    inputValue := "", isLoading := true }

/-- Pending request of the first send. -/
def witPending2 : PendingSend :=
  { convId := "1",
    request := { message := "hello", agent_id := AGENT_ID, user_id := "chatbot-user",
                 session_id := "1" } }

/-- Process state after the first send began. -/
def witState2 : SysState :=
  { app := witApp2, pending := [witPending2] }

lemma witState2_reachable : Reachable witState2 := by
  have h1 : Step initState witState1 :=
    Step.create initState "1" "t0"
      (by intro c hc; simp [initState] at hc)
      (by intro p hp; simp [initState] at hp)
  have h2 : Step witState1 witState2 :=
    Step.sendBegin witState1 "hello" "2" "t1" witApp2 witPending2 (by decide)
  exact Reachable.step (Reachable.step Reachable.init h1) h2

/-- C8 witness: in the reachable state after the first send, the title of the
conversation is the first 50 characters of the text of its first message. -/
theorem title_freeze_witness :
    (witState2.app.conversations.getD 0 (newConversation "z" "tz")).title =
      (mkUserMessage "2" "hello" "t1").text.take 50 := by
  have h := title_freeze witState2 witState2_reachable
  have hmem : witState2.app.conversations.getD 0 (newConversation "z" "tz") ∈
      witState2.app.conversations := by decide
  exact (h _ hmem).2 (mkUserMessage "2" "hello" "t1") [] (by decide)

end ChatCore
